import Mathlib

/-!
Shallow embedding of `tonban_api.py` (Tonban API: export/import HS code
search over a SQLite file) together with proofs about its route handlers.

The embedding models:
* Python string primitives used by the handlers (`str.strip`, `int(...)`,
  `len`), restricted to ASCII whitespace/digits, which is all the claims
  exercise;
* the SQLite fragment the four SQL templates use: the four-table hierarchy
  join, `substr(x,1,7)`, `LIKE` (default ASCII-case-insensitive semantics,
  `%` and `_` wildcards), `ORDER BY ... ASC` under the default BINARY
  collation (code-point order), and `LIMIT`;
* the Flask layer as pure functions: each handler maps the optional query
  parameters and the optional database file to a `Response` value holding
  the HTTP status and the JSON envelope fields.
-/

namespace Tonban

/-! ### Python string and integer primitives -/

/-- Models Python `str.strip()` (ASCII whitespace). -/
def pyStrip (s : String) : String :=
  ((s.data.dropWhile Char.isWhitespace).reverse.dropWhile Char.isWhitespace).reverse.asString

/-- Numeric value of an ASCII digit. -/
def digitVal (c : Char) : Nat := c.toNat - '0'.toNat

/-- Digit-accumulating loop of Python `int(str)`: after a leading digit,
accepts further digits with single underscores allowed between digits. -/
def pyIntLoop : Nat → List Char → Option Nat
  | acc, [] => some acc
  | acc, '_' :: rest =>
    match rest with
    | c :: rest2 => if c.isDigit then pyIntLoop (acc * 10 + digitVal c) rest2 else none
    | [] => none
  | acc, c :: rest => if c.isDigit then pyIntLoop (acc * 10 + digitVal c) rest else none

/-- Unsigned body of Python `int(str)`: a digit followed by digits with
single internal underscores. -/
def pyIntCore : List Char → Option Nat
  | [] => none
  | c :: rest => if c.isDigit then pyIntLoop (digitVal c) rest else none

/-- Models Python `int(str)` on ASCII input: strip whitespace, optional
sign, digits (single internal underscores allowed); `none` is the
`ValueError` case. -/
def pyParseInt (s : String) : Option Int :=
  match (pyStrip s).data with
  | '+' :: rest => (pyIntCore rest).map (fun n => (n : Int))
  | '-' :: rest => (pyIntCore rest).map (fun n => -(n : Int))
  | l => (pyIntCore l).map (fun n => (n : Int))

/-! ### SQLite primitives -/

/-- SQLite `LIKE` matcher on character lists, with a fuel argument making
the recursion structural (the fuel passed by `sqlLike` always suffices).
`%` matches any sequence, `_` any single character; comparison folds ASCII
case, matching SQLite's default `LIKE` semantics. -/
def likeMatchF : Nat → List Char → List Char → Bool
  | 0, _, _ => false
  | fuel + 1, pat, s =>
    match pat, s with
    | [], s => s.isEmpty
    | '%' :: ps, s =>
      likeMatchF fuel ps s ||
        (match s with
         | [] => false
         | _ :: s2 => likeMatchF fuel ('%' :: ps) s2)
    | '_' :: ps, s =>
      (match s with
       | [] => false
       | _ :: s2 => likeMatchF fuel ps s2)
    | p :: ps, s =>
      (match s with
       | [] => false
       | c :: s2 => (p.toLower == c.toLower) && likeMatchF fuel ps s2)

/-- SQLite `v LIKE pat` for non-NULL `v`. -/
def sqlLike (v pat : String) : Bool :=
  likeMatchF (pat.data.length + v.data.length + 1) pat.data v.data

/-- SQLite `v LIKE pat` for a nullable column: `NULL LIKE pat` is not true. -/
def sqlLikeN (v : Option String) (pat : String) : Bool :=
  match v with
  | some s => sqlLike s pat
  | none => false

/-- SQLite `substr(s, 1, 7)`: the first seven characters. -/
def sqlSubstr17 (s : String) : String := (s.data.take 7).asString

/-- Code-point comparison of character lists: the order SQLite's default
BINARY collation induces on UTF-8 text (byte order agrees with code-point
order). -/
def charListLe : List Char → List Char → Bool
  | [], _ => true
  | _ :: _, [] => false
  | a :: as, b :: bs =>
    if a.val < b.val then true
    else if b.val < a.val then false
    else charListLe as bs

/-- String comparison under SQLite's default BINARY collation. -/
def strLe (a b : String) : Bool := charListLe a.data b.data

/-- Insertion of an element into a list sorted by a boolean comparator. -/
def insertLe (le : α → α → Bool) (x : α) : List α → List α
  | [] => [x]
  | y :: ys => if le x y then x :: y :: ys else y :: insertLe le x ys

/-- Insertion sort by a boolean comparator: models SQLite `ORDER BY ... ASC`. -/
def sortLe (le : α → α → Bool) : List α → List α
  | [] => []
  | x :: xs => insertLe le x (sortLe le xs)

/-! ### Data model: the tables of 統番.db referenced by the SQL templates.

Identifying code columns (部番/類番/項番/号番/統番) are modelled as strings
(they are the join/lookup keys of the dataset); all descriptive text
columns are nullable. -/

/-- Row of table 部番 (part): code, title, note. -/
structure Buban where
  bu : String
  buTitle : Option String
  buChu : Option String
deriving DecidableEq, Repr

/-- Row of table 類番 (chapter): code, title, note, owning part code. -/
structure Ruiban where
  rui : String
  ruiTitle : Option String
  ruiChu : Option String
  bu : String
deriving DecidableEq, Repr

/-- Row of table 項番 (heading): code, title, owning chapter code. -/
structure Kouban where
  kou : String
  kouTitle : Option String
  rui : String
deriving DecidableEq, Repr

/-- Row of table 号番 (subheading): code, title, owning heading code. -/
structure Gouban where
  gou : String
  gouTitle : Option String
  kou : String
deriving DecidableEq, Repr

/-- Row of table 輸出統番 (export tariff entry). -/
structure YushutsuToban where
  toban : String
  hinmei : Option String
  tani1 : Option String
  tani2 : Option String
  tahorei : Option String
deriving DecidableEq, Repr

/-- Row of table 輸入統番 (import tariff entry): the export columns plus
the 27 tariff-rate columns of `SELECT_IMPORT_EXTRA`. -/
structure YunyuToban where
  toban : String
  hinmei : Option String
  tani1 : Option String
  tani2 : Option String
  tahorei : Option String
  kihon : Option String
  zantei : Option String
  wto : Option String
  gsp : Option String
  ldc : Option String
  epaSG : Option String
  epaMX : Option String
  epaMY : Option String
  epaCL : Option String
  epaTH : Option String
  epaID : Option String
  epaBN : Option String
  epaASEAN : Option String
  epaPH : Option String
  epaCH : Option String
  epaVN : Option String
  epaIN : Option String
  epaPE : Option String
  epaAU : Option String
  epaMN : Option String
  epaCPTPP : Option String
  epaEU : Option String
  epaUK : Option String
  epaRCEP1 : Option String
  epaRCEP2 : Option String
  epaRCEP3 : Option String
  us : Option String
deriving DecidableEq, Repr

/-- The dataset 統番.db: the four hierarchy tables and the two entry tables. -/
structure DB where
  buban : List Buban
  ruiban : List Ruiban
  kouban : List Kouban
  gouban : List Gouban
  yushutsuToban : List YushutsuToban
  yunyuToban : List YunyuToban
deriving DecidableEq, Repr

/-- A result row as produced by `sqlite3.Row` → `dict(r)`: an association
list from column name to nullable value. -/
abbrev Row := List (String × Option String)

/-- One record of the four-table hierarchy join, before projection. -/
structure JoinedRow (E : Type) where
  jb : Buban
  jr : Ruiban
  jk : Kouban
  jg : Gouban
  te : E
deriving DecidableEq

/-- The shared join skeleton of all four SQL templates:
`FROM <entries> te JOIN 号番 g ON g.号番 = substr(te.統番,1,7)
JOIN 項番 k ON k.項番 = g.項番 JOIN 類番 r ON r.類番 = k.類番
JOIN 部番 b ON b.部番 = r.部番`. -/
def hierJoin (db : DB) (entries : List E) (tobanOf : E → String) : List (JoinedRow E) :=
  entries.flatMap fun te =>
    (db.gouban.filter fun g => g.gou == sqlSubstr17 (tobanOf te)).flatMap fun g =>
      (db.kouban.filter fun k => k.kou == g.kou).flatMap fun k =>
        (db.ruiban.filter fun r => r.rui == k.rui).flatMap fun r =>
          (db.buban.filter fun b => b.bu == r.bu).map fun b =>
            { jb := b, jr := r, jk := k, jg := g, te := te }

/-- Projection of `SELECT_COMMON` for an export join record. -/
def toRowExport (j : JoinedRow YushutsuToban) : Row :=
  [("部番", some j.jb.bu), ("類番", some j.jr.rui), ("項番", some j.jk.kou),
   ("号番", some j.jg.gou), ("統番", some j.te.toban),
   ("部タイトル", j.jb.buTitle), ("類タイトル", j.jr.ruiTitle),
   ("項タイトル", j.jk.kouTitle), ("号タイトル", j.jg.gouTitle),
   ("部注", j.jb.buChu), ("類注", j.jr.ruiChu),
   ("品名", j.te.hinmei), ("単位1", j.te.tani1), ("単位2", j.te.tani2),
   ("他法令", j.te.tahorei)]

/-- Projection of `SELECT_COMMON + SELECT_IMPORT_EXTRA` for an import join
record. -/
def toRowImport (j : JoinedRow YunyuToban) : Row :=
  [("部番", some j.jb.bu), ("類番", some j.jr.rui), ("項番", some j.jk.kou),
   ("号番", some j.jg.gou), ("統番", some j.te.toban),
   ("部タイトル", j.jb.buTitle), ("類タイトル", j.jr.ruiTitle),
   ("項タイトル", j.jk.kouTitle), ("号タイトル", j.jg.gouTitle),
   ("部注", j.jb.buChu), ("類注", j.jr.ruiChu),
   ("品名", j.te.hinmei), ("単位1", j.te.tani1), ("単位2", j.te.tani2),
   ("他法令", j.te.tahorei),
   ("関税率_基本", j.te.kihon), ("関税率_暫定", j.te.zantei),
   ("関税率_WTO", j.te.wto), ("関税率_特恵GSP", j.te.gsp),
   ("関税率_特恵LDC", j.te.ldc), ("関税率_EPA_SG", j.te.epaSG),
   ("関税率_EPA_MX", j.te.epaMX), ("関税率_EPA_MY", j.te.epaMY),
   ("関税率_EPA_CL", j.te.epaCL), ("関税率_EPA_TH", j.te.epaTH),
   ("関税率_EPA_ID", j.te.epaID), ("関税率_EPA_BN", j.te.epaBN),
   ("関税率_EPA_ASEAN", j.te.epaASEAN), ("関税率_EPA_PH", j.te.epaPH),
   ("関税率_EPA_CH", j.te.epaCH), ("関税率_EPA_VN", j.te.epaVN),
   ("関税率_EPA_IN", j.te.epaIN), ("関税率_EPA_PE", j.te.epaPE),
   ("関税率_EPA_AU", j.te.epaAU), ("関税率_EPA_MN", j.te.epaMN),
   ("関税率_EPA_CPTPP", j.te.epaCPTPP), ("関税率_EPA_EU", j.te.epaEU),
   ("関税率_EPA_UK", j.te.epaUK), ("関税率_EPA_RCEP1", j.te.epaRCEP1),
   ("関税率_EPA_RCEP2", j.te.epaRCEP2), ("関税率_EPA_RCEP3", j.te.epaRCEP3),
   ("関税率_US", j.te.us)]

/-- The `WHERE ... LIKE` disjunction of the two search templates, on an
export join record. -/
def whereLikeExport (j : JoinedRow YushutsuToban) (kw : String) : Bool :=
  sqlLikeN j.te.hinmei kw || sqlLikeN j.jb.buTitle kw || sqlLikeN j.jr.ruiTitle kw ||
    sqlLikeN j.jk.kouTitle kw || sqlLikeN j.jg.gouTitle kw

/-- The `WHERE ... LIKE` disjunction of the two search templates, on an
incoming (import) join record. -/
def whereLikeImport (j : JoinedRow YunyuToban) (kw : String) : Bool :=
  sqlLikeN j.te.hinmei kw || sqlLikeN j.jb.buTitle kw || sqlLikeN j.jr.ruiTitle kw ||
    sqlLikeN j.jk.kouTitle kw || sqlLikeN j.jg.gouTitle kw

/-- Evaluation of `SQL_EXPORT_CODE` on the dataset. -/
def sqlExportCode (db : DB) (code : String) : List Row :=
  ((hierJoin db db.yushutsuToban (fun te => te.toban)).filter
      fun j => j.te.toban == code).map toRowExport

/-- Evaluation of `SQL_EXPORT_NAME` on the dataset: `WHERE` filter, then
`ORDER BY te.統番`, then `LIMIT`, then projection. -/
def sqlExportName (db : DB) (kw : String) (lim : Nat) : List Row :=
  (((sortLe (fun j1 j2 => strLe j1.te.toban j2.te.toban)
        ((hierJoin db db.yushutsuToban (fun te => te.toban)).filter
          fun j => whereLikeExport j kw)).take lim).map toRowExport)

/-- Evaluation of `SQL_IMPORT_CODE` on the dataset. -/
def sqlImportCode (db : DB) (code : String) : List Row :=
  ((hierJoin db db.yunyuToban (fun te => te.toban)).filter
      fun j => j.te.toban == code).map toRowImport

/-- Evaluation of `SQL_IMPORT_NAME` on the dataset. -/
def sqlImportName (db : DB) (kw : String) (lim : Nat) : List Row :=
  (((sortLe (fun j1 j2 => strLe j1.te.toban j2.te.toban)
        ((hierJoin db db.yunyuToban (fun te => te.toban)).filter
          fun j => whereLikeImport j kw)).take lim).map toRowImport)

/-! ### Flask layer -/

/-- An HTTP response of the service: status code plus the envelope fields
of the JSON body. -/
structure Response where
  status : Nat
  resultCd : Bool
  message : Option String
  data : Option (List Row)
deriving DecidableEq, Repr

/-- Models `_query`: an absent database file yields an empty result list,
otherwise the query runs against the dataset. -/
def _query (dbFile : Option DB) (run : DB → List Row) : List Row :=
  match dbFile with
  | none => []
  | some db => run db

/-- Models `_success`: HTTP 200 with `resultCd = true` and a `data` key. -/
def _success (data : List Row) : Response :=
  { status := 200, resultCd := true, message := none, data := some data }

/-- Models `_error`: the given status with `resultCd = false` and a
`message` key, no `data` key. -/
def _error (msg : String) (status : Nat) : Response :=
  { status := status, resultCd := false, message := some msg, data := none }

/-- Handler of `GET /tonban/export` (`export_by_code`). -/
def export_by_code (dbFile : Option DB) (codeParam : Option String) : Response :=
  let code := pyStrip (codeParam.getD "")
  if code = "" then _error "code パラメータを指定してください" 400
  else
    let data := _query dbFile (fun db => sqlExportCode db code)
    if data = [] then _error ("統番 " ++ code ++ " が見つかりません") 404
    else _success data

/-- Limit parameter handling of the search handlers:
`int(request.args.get("limit", 100))`; `none` is the `ValueError` case. -/
def pyParseLimit (limitParam : Option String) : Option Int :=
  match limitParam with
  | none => some 100
  | some s => pyParseInt s

/-- Handler of `GET /tonban/export/search` (`export_by_name`). -/
def export_by_name (dbFile : Option DB) (qParam limitParam : Option String) : Response :=
  let q := pyStrip (qParam.getD "")
  if q.length < 2 then _error "q パラメータを2文字以上で指定してください" 400
  else
    match pyParseLimit limitParam with
    | none => _error "limit パラメータは整数で指定してください" 400
    | some n =>
      let lim : Int := max 1 (min n 1000)
      _success (_query dbFile (fun db => sqlExportName db ("%" ++ q ++ "%") lim.toNat))

/-- Handler of `GET /tonban/import` (`import_by_code`). -/
def import_by_code (dbFile : Option DB) (codeParam : Option String) : Response :=
  let code := pyStrip (codeParam.getD "")
  if code = "" then _error "code パラメータを指定してください" 400
  else
    let data := _query dbFile (fun db => sqlImportCode db code)
    if data = [] then _error ("統番 " ++ code ++ " が見つかりません") 404
    else _success data

/-- Handler of `GET /tonban/import/search` (`import_by_name`). -/
def import_by_name (dbFile : Option DB) (qParam limitParam : Option String) : Response :=
  let q := pyStrip (qParam.getD "")
  if q.length < 2 then _error "q パラメータを2文字以上で指定してください" 400
  else
    match pyParseLimit limitParam with
    | none => _error "limit パラメータは整数で指定してください" 400
    | some n =>
      let lim : Int := max 1 (min n 1000)
      _success (_query dbFile (fun db => sqlImportName db ("%" ++ q ++ "%") lim.toNat))

end Tonban

namespace Tonban

/-! ### Specification-side predicates on returned rows -/

/-- Value of the 統番 column of a returned row (empty when absent). -/
def rowToban (row : Row) : String := ((List.lookup "統番" row).getD none).getD ""

/-- The rows of a response are in ascending 統番 order (BINARY collation),
read off adjacent pairs. -/
def sortedByToban (rows : List Row) : Prop :=
  List.Chain' (fun r1 r2 => strLe (rowToban r1) (rowToban r2) = true) rows

/-- One named column of a returned row matches a LIKE pattern (an absent
column behaves like a NULL value). -/
def colLike (row : Row) (cname pat : String) : Bool :=
  sqlLikeN ((List.lookup cname row).getD none) pat

/-- At least one of the five searched text columns of a returned row
matches the LIKE pattern. -/
def rowLikePat (row : Row) (pat : String) : Bool :=
  colLike row "品名" pat || colLike row "部タイトル" pat || colLike row "類タイトル" pat ||
    colLike row "項タイトル" pat || colLike row "号タイトル" pat

/-- At least one of the five searched text columns of a returned row
matches the `%keyword%` LIKE pattern built from the keyword. -/
def rowLikeHit (row : Row) (q : String) : Bool := rowLikePat row ("%" ++ q ++ "%")

/-- Character-list prefix test. -/
def startsWithCL : List Char → List Char → Bool
  | [], _ => true
  | _ :: _, [] => false
  | a :: as, b :: bs => a == b && startsWithCL as bs

/-- Character-list substring (contiguous infix) test. -/
def hasSubCL (sub : List Char) : List Char → Bool
  | [] => sub.isEmpty
  | c :: rest => startsWithCL sub (c :: rest) || hasSubCL sub rest

/-- Literal-substring test on a nullable column value. -/
def hasSubN (v : Option String) (sub : String) : Bool :=
  match v with
  | some s => hasSubCL sub.data s.data
  | none => false

/-- One named column of a returned row contains a literal substring (an
absent column behaves like a NULL value). -/
def colHasSub (row : Row) (cname sub : String) : Bool :=
  hasSubN ((List.lookup cname row).getD none) sub

/-- At least one of the five searched text columns of a returned row
contains the keyword as a literal substring. -/
def rowSubstrHit (row : Row) (q : String) : Bool :=
  colHasSub row "品名" q || colHasSub row "部タイトル" q || colHasSub row "類タイトル" q ||
    colHasSub row "項タイトル" q || colHasSub row "号タイトル" q

/-- Envelope invariant of §4.2: success carries `data` and no `message`;
failure carries `message` and no `data`. -/
def envelopeOK (r : Response) : Prop :=
  (r.resultCd = true ∧ r.data.isSome = true ∧ r.message = none) ∨
  (r.resultCd = false ∧ r.message.isSome = true ∧ r.data = none)

/-- The list of the 27 tariff-rate column names of `SELECT_IMPORT_EXTRA`. -/
def rateColumns : List String :=
  ["関税率_基本", "関税率_暫定", "関税率_WTO", "関税率_特恵GSP", "関税率_特恵LDC",
   "関税率_EPA_SG", "関税率_EPA_MX", "関税率_EPA_MY", "関税率_EPA_CL", "関税率_EPA_TH",
   "関税率_EPA_ID", "関税率_EPA_BN", "関税率_EPA_ASEAN", "関税率_EPA_PH", "関税率_EPA_CH",
   "関税率_EPA_VN", "関税率_EPA_IN", "関税率_EPA_PE", "関税率_EPA_AU", "関税率_EPA_MN",
   "関税率_EPA_CPTPP", "関税率_EPA_EU", "関税率_EPA_UK", "関税率_EPA_RCEP1",
   "関税率_EPA_RCEP2", "関税率_EPA_RCEP3", "関税率_US"]

/-- Concrete dataset used by witnesses and counterexamples: one complete
hierarchy path and two export entries / one import entry beneath it. -/
def sampleDB : DB :=
  { buban := [{ bu := "01", buTitle := some "Section ONE", buChu := none }]
  , ruiban := [{ rui := "01", ruiTitle := some "chapter one", ruiChu := none, bu := "01" }]
  , kouban := [{ kou := "0101", kouTitle := some "heading one", rui := "01" }]
  , gouban := [{ gou := "0101.21", gouTitle := some "subheading one", kou := "0101" }]
  , yushutsuToban :=
      [{ toban := "0101.21-000", hinmei := some "live horses ab", tani1 := none,
         tani2 := none, tahorei := none },
       { toban := "0101.21-001", hinmei := some "cows", tani1 := none,
         tani2 := none, tahorei := none }]
  , yunyuToban :=
      [{ toban := "0101.21-000", hinmei := some "live horses", tani1 := none,
         tani2 := none, tahorei := none,
         kihon := some "0%", zantei := none, wto := none, gsp := none, ldc := none,
         epaSG := none, epaMX := none, epaMY := none, epaCL := none, epaTH := none,
         epaID := none, epaBN := none, epaASEAN := none, epaPH := none, epaCH := none,
         epaVN := none, epaIN := none, epaPE := none, epaAU := none, epaMN := none,
         epaCPTPP := none, epaEU := none, epaUK := none, epaRCEP1 := none,
         epaRCEP2 := none, epaRCEP3 := none, us := none }] }

/-! ### Generic lemmas about the sort and comparator -/

theorem charListLe_total (as bs : List Char) (h : charListLe as bs = false) :
    charListLe bs as = true := by
  induction as generalizing bs with
  | nil => simp [charListLe] at h
  | cons a as ih =>
    cases bs with
    | nil => simp [charListLe]
    | cons b bs =>
      simp only [charListLe] at h ⊢
      split at h
      · exact absurd h (by simp)
      · split at h
        · simp [*]
        · rename_i h1 h2
          rw [if_neg h2, if_neg h1]
          exact ih bs h

theorem strLe_total (a b : String) (h : strLe a b = false) : strLe b a = true :=
  charListLe_total a.data b.data h

theorem length_insertLe (le : α → α → Bool) (x : α) (l : List α) :
    (insertLe le x l).length = l.length + 1 := by
  induction l with
  | nil => rfl
  | cons y ys ih => simp only [insertLe]; split <;> simp [ih]

theorem length_sortLe (le : α → α → Bool) (l : List α) :
    (sortLe le l).length = l.length := by
  induction l with
  | nil => rfl
  | cons x xs ih => simp [sortLe, length_insertLe, ih]

theorem mem_insertLe {le : α → α → Bool} {x a : α} {l : List α} :
    a ∈ insertLe le x l ↔ a = x ∨ a ∈ l := by
  induction l with
  | nil => simp [insertLe]
  | cons y ys ih =>
    simp only [insertLe]
    split
    · simp
    · simp only [List.mem_cons, ih]
      tauto

theorem mem_sortLe {le : α → α → Bool} {a : α} {l : List α} :
    a ∈ sortLe le l ↔ a ∈ l := by
  induction l with
  | nil => simp [sortLe]
  | cons x xs ih => simp [sortLe, mem_insertLe, ih]

theorem chain'_insertLe {le : α → α → Bool}
    (htot : ∀ a b, le a b = false → le b a = true) (x : α) {l : List α}
    (h : List.Chain' (fun a b => le a b = true) l) :
    List.Chain' (fun a b => le a b = true) (insertLe le x l) := by
  induction l with
  | nil => simp [insertLe]
  | cons y ys ih =>
    simp only [insertLe]
    split
    · exact List.Chain'.cons (by assumption) h
    · rename_i hxy
      have hys := h.tail
      have hins := ih hys
      refine List.chain'_cons'.mpr ⟨?_, hins⟩
      intro z hz
      cases ys with
      | nil =>
        simp [insertLe] at hz
        subst hz
        exact htot x y (by simpa using hxy)
      | cons w ws =>
        simp only [insertLe] at hz
        split at hz
        · simp at hz
          subst hz
          exact htot x y (by simpa using hxy)
        · simp at hz
          subst hz
          exact (List.chain'_cons.mp h).1

theorem chain'_sortLe {le : α → α → Bool}
    (htot : ∀ a b, le a b = false → le b a = true) (l : List α) :
    List.Chain' (fun a b => le a b = true) (sortLe le l) := by
  induction l with
  | nil => simp [sortLe]
  | cons x xs ih => exact chain'_insertLe htot x ih

theorem rowToban_toRowExport (j : JoinedRow YushutsuToban) :
    rowToban (toRowExport j) = j.te.toban := rfl

theorem rowToban_toRowImport (j : JoinedRow YunyuToban) :
    rowToban (toRowImport j) = j.te.toban := rfl

theorem rowLikePat_toRowExport (j : JoinedRow YushutsuToban) (pat : String) :
    rowLikePat (toRowExport j) pat = whereLikeExport j pat := rfl

theorem rowLikePat_toRowImport (j : JoinedRow YunyuToban) (pat : String) :
    rowLikePat (toRowImport j) pat = whereLikeImport j pat := rfl

end Tonban

namespace Tonban

/-! ### Lemmas about the four query evaluations -/

theorem sqlExportName_sorted (db : DB) (kw : String) (lim : Nat) :
    sortedByToban (sqlExportName db kw lim) := by
  unfold sortedByToban sqlExportName
  rw [List.chain'_map]
  refine List.Chain'.imp ?_ (List.Chain'.take (chain'_sortLe ?_ _) lim)
  · intro a b hab
    exact hab
  · intro a b hab
    exact strLe_total _ _ hab

theorem sqlImportName_sorted (db : DB) (kw : String) (lim : Nat) :
    sortedByToban (sqlImportName db kw lim) := by
  unfold sortedByToban sqlImportName
  rw [List.chain'_map]
  refine List.Chain'.imp ?_ (List.Chain'.take (chain'_sortLe ?_ _) lim)
  · intro a b hab
    exact hab
  · intro a b hab
    exact strLe_total _ _ hab

theorem sqlExportName_length (db : DB) (kw : String) (lim : Nat) :
    (sqlExportName db kw lim).length ≤ lim := by
  unfold sqlExportName
  simp [List.length_take_le]

theorem sqlImportName_length (db : DB) (kw : String) (lim : Nat) :
    (sqlImportName db kw lim).length ≤ lim := by
  unfold sqlImportName
  simp [List.length_take_le]

theorem sqlExportName_like (db : DB) (kw : String) (lim : Nat) :
    ∀ row ∈ sqlExportName db kw lim, rowLikePat row kw = true := by
  intro row hrow
  unfold sqlExportName at hrow
  obtain ⟨j, hj, rfl⟩ := List.mem_map.mp hrow
  have hj2 : j ∈ sortLe (fun j1 j2 => strLe j1.te.toban j2.te.toban)
      ((hierJoin db db.yushutsuToban (fun te => te.toban)).filter
        fun j => whereLikeExport j kw) := List.mem_of_mem_take hj
  have hj3 := mem_sortLe.mp hj2
  have hj4 := List.of_mem_filter hj3
  simpa [rowLikePat_toRowExport] using hj4

theorem sqlImportName_like (db : DB) (kw : String) (lim : Nat) :
    ∀ row ∈ sqlImportName db kw lim, rowLikePat row kw = true := by
  intro row hrow
  unfold sqlImportName at hrow
  obtain ⟨j, hj, rfl⟩ := List.mem_map.mp hrow
  have hj2 : j ∈ sortLe (fun j1 j2 => strLe j1.te.toban j2.te.toban)
      ((hierJoin db db.yunyuToban (fun te => te.toban)).filter
        fun j => whereLikeImport j kw) := List.mem_of_mem_take hj
  have hj3 := mem_sortLe.mp hj2
  have hj4 := List.of_mem_filter hj3
  simpa [rowLikePat_toRowImport] using hj4

/-! ### Handler-shape lemmas -/

theorem export_by_name_success (dbFile : Option DB) (qP lP : Option String) (n : Int)
    (hq : ¬ (pyStrip (qP.getD "")).length < 2)
    (hl : pyParseLimit lP = some n) :
    export_by_name dbFile qP lP =
      _success (_query dbFile
        (fun db => sqlExportName db ("%" ++ pyStrip (qP.getD "") ++ "%")
          (max 1 (min n 1000)).toNat)) := by
  unfold export_by_name
  rw [if_neg hq, hl]

theorem import_by_name_success (dbFile : Option DB) (qP lP : Option String) (n : Int)
    (hq : ¬ (pyStrip (qP.getD "")).length < 2)
    (hl : pyParseLimit lP = some n) :
    import_by_name dbFile qP lP =
      _success (_query dbFile
        (fun db => sqlImportName db ("%" ++ pyStrip (qP.getD "") ++ "%")
          (max 1 (min n 1000)).toNat)) := by
  unfold import_by_name
  rw [if_neg hq, hl]

end Tonban

namespace Tonban

theorem envelopeOK_success (d : List Row) : envelopeOK (_success d) :=
  Or.inl ⟨rfl, rfl, rfl⟩

theorem envelopeOK_error (m : String) (s : Nat) : envelopeOK (_error m s) :=
  Or.inr ⟨rfl, rfl, rfl⟩

theorem rateColumns_toRowImport (j : JoinedRow YunyuToban) :
    rateColumns.all (fun c => (List.lookup c (toRowImport j)).isSome) = true := rfl

theorem rateColumns_toRowExport (j : JoinedRow YushutsuToban) :
    rateColumns.all (fun c => (List.lookup c (toRowExport j)).isNone) = true := rfl

theorem export_by_code_data_shape (dbFile : Option DB) (cp : Option String) :
    ∀ row ∈ (export_by_code dbFile cp).data.getD [], ∃ j, row = toRowExport j := by
  intro row hrow
  simp only [export_by_code] at hrow
  split at hrow
  · simp [_error] at hrow
  · split at hrow
    · simp [_error] at hrow
    · simp only [_success, Option.getD_some] at hrow
      cases dbFile with
      | none => simp [_query] at hrow
      | some db =>
        simp only [_query, sqlExportCode] at hrow
        obtain ⟨j, _, rfl⟩ := List.mem_map.mp hrow
        exact ⟨j, rfl⟩

theorem import_by_code_data_shape (dbFile : Option DB) (cp : Option String) :
    ∀ row ∈ (import_by_code dbFile cp).data.getD [], ∃ j, row = toRowImport j := by
  intro row hrow
  simp only [import_by_code] at hrow
  split at hrow
  · simp [_error] at hrow
  · split at hrow
    · simp [_error] at hrow
    · simp only [_success, Option.getD_some] at hrow
      cases dbFile with
      | none => simp [_query] at hrow
      | some db =>
        simp only [_query, sqlImportCode] at hrow
        obtain ⟨j, _, rfl⟩ := List.mem_map.mp hrow
        exact ⟨j, rfl⟩

theorem export_by_name_data_shape (dbFile : Option DB) (qP lP : Option String) :
    ∀ row ∈ (export_by_name dbFile qP lP).data.getD [], ∃ j, row = toRowExport j := by
  intro row hrow
  simp only [export_by_name] at hrow
  split at hrow
  · simp [_error] at hrow
  · split at hrow
    · simp [_error] at hrow
    · simp only [_success, Option.getD_some] at hrow
      cases dbFile with
      | none => simp [_query] at hrow
      | some db =>
        simp only [_query, sqlExportName] at hrow
        obtain ⟨j, _, rfl⟩ := List.mem_map.mp hrow
        exact ⟨j, rfl⟩

theorem import_by_name_data_shape (dbFile : Option DB) (qP lP : Option String) :
    ∀ row ∈ (import_by_name dbFile qP lP).data.getD [], ∃ j, row = toRowImport j := by
  intro row hrow
  simp only [import_by_name] at hrow
  split at hrow
  · simp [_error] at hrow
  · split at hrow
    · simp [_error] at hrow
    · simp only [_success, Option.getD_some] at hrow
      cases dbFile with
      | none => simp [_query] at hrow
      | some db =>
        simp only [_query, sqlImportName] at hrow
        obtain ⟨j, _, rfl⟩ := List.mem_map.mp hrow
        exact ⟨j, rfl⟩

/-- C4: a keyword whose trimmed length is below 2 (also absent or
whitespace-only `q`) makes both search routes answer HTTP 400 with
`resultCd = false`, for every dataset state. -/
theorem C4_short_keyword_400 (dbFile : Option DB) (qP lP : Option String)
    (h : (pyStrip (qP.getD "")).length < 2) :
    export_by_name dbFile qP lP = _error "q パラメータを2文字以上で指定してください" 400 ∧
    import_by_name dbFile qP lP = _error "q パラメータを2文字以上で指定してください" 400 := by
  constructor
  · simp only [export_by_name]
    rw [if_pos h]
  · simp only [import_by_name]
    rw [if_pos h]

/-- C5: an absent or blank-after-trim `code` makes both exact-lookup
routes answer HTTP 400 with `resultCd = false`, for every dataset state. -/
theorem C5_blank_code_400 (dbFile : Option DB) (cp : Option String)
    (h : pyStrip (cp.getD "") = "") :
    export_by_code dbFile cp = _error "code パラメータを指定してください" 400 ∧
    import_by_code dbFile cp = _error "code パラメータを指定してください" 400 := by
  constructor
  · simp only [export_by_code]
    rw [if_pos h]
  · simp only [import_by_code]
    rw [if_pos h]

end Tonban

namespace Tonban

/-- C2: with a non-blank `code`, an exact lookup whose query yields zero
rows answers HTTP 404 (`resultCd = false`, message present, no data key),
and one whose query yields rows answers HTTP 200 (`resultCd = true`) with
exactly those rows as `data`; on both routes. -/
theorem C2_code_lookup_404_or_200 (dbFile : Option DB) (cp : Option String)
    (hc : pyStrip (cp.getD "") ≠ "") :
    ((_query dbFile (fun db => sqlExportCode db (pyStrip (cp.getD ""))) = [] →
        export_by_code dbFile cp =
          _error ("統番 " ++ pyStrip (cp.getD "") ++ " が見つかりません") 404) ∧
      (_query dbFile (fun db => sqlExportCode db (pyStrip (cp.getD ""))) ≠ [] →
        export_by_code dbFile cp =
          _success (_query dbFile (fun db => sqlExportCode db (pyStrip (cp.getD "")))))) ∧
    ((_query dbFile (fun db => sqlImportCode db (pyStrip (cp.getD ""))) = [] →
        import_by_code dbFile cp =
          _error ("統番 " ++ pyStrip (cp.getD "") ++ " が見つかりません") 404) ∧
      (_query dbFile (fun db => sqlImportCode db (pyStrip (cp.getD ""))) ≠ [] →
        import_by_code dbFile cp =
          _success (_query dbFile (fun db => sqlImportCode db (pyStrip (cp.getD "")))))) := by
  refine ⟨⟨?_, ?_⟩, ?_, ?_⟩ <;> intro h
  · simp only [export_by_code]
    rw [if_neg hc, if_pos h]
  · simp only [export_by_code]
    rw [if_neg hc, if_neg h]
  · simp only [import_by_code]
    rw [if_neg hc, if_pos h]
  · simp only [import_by_code]
    rw [if_neg hc, if_neg h]

/-- C6: with the dataset file absent, `_query` yields the empty result
set; an exact lookup with a non-blank code then answers 404 `NotFound`,
and a valid search answers 200 with `resultCd = true` and empty `data`. -/
theorem C6_missing_db_degrades (cp qP lP : Option String) (f : DB → List Row) (n : Int)
    (hc : pyStrip (cp.getD "") ≠ "")
    (hq : ¬ (pyStrip (qP.getD "")).length < 2)
    (hl : pyParseLimit lP = some n) :
    _query none f = [] ∧
    export_by_code none cp =
      _error ("統番 " ++ pyStrip (cp.getD "") ++ " が見つかりません") 404 ∧
    import_by_code none cp =
      _error ("統番 " ++ pyStrip (cp.getD "") ++ " が見つかりません") 404 ∧
    export_by_name none qP lP = _success [] ∧
    import_by_name none qP lP = _success [] := by
  refine ⟨rfl, ?_, ?_, ?_, ?_⟩
  · simp only [export_by_code, _query]
    rw [if_neg hc]
    simp
  · simp only [import_by_code, _query]
    rw [if_neg hc]
    simp
  · rw [export_by_name_success none qP lP n hq hl]
    rfl
  · rw [import_by_name_success none qP lP n hq hl]
    rfl

/-- C7: every response of every route satisfies the uniform envelope:
`resultCd = true` with a `data` key and no `message` on success,
`resultCd = false` with a `message` and no `data` key on failure. -/
theorem C7_envelope_uniform (dbFile : Option DB) (cp qP lP : Option String) :
    envelopeOK (export_by_code dbFile cp) ∧ envelopeOK (export_by_name dbFile qP lP) ∧
    envelopeOK (import_by_code dbFile cp) ∧ envelopeOK (import_by_name dbFile qP lP) := by
  refine ⟨?_, ?_, ?_, ?_⟩
  · simp only [export_by_code]
    split
    · exact envelopeOK_error _ _
    · split
      · exact envelopeOK_error _ _
      · exact envelopeOK_success _
  · simp only [export_by_name]
    split
    · exact envelopeOK_error _ _
    · split
      · exact envelopeOK_error _ _
      · exact envelopeOK_success _
  · simp only [import_by_code]
    split
    · exact envelopeOK_error _ _
    · split
      · exact envelopeOK_error _ _
      · exact envelopeOK_success _
  · simp only [import_by_name]
    split
    · exact envelopeOK_error _ _
    · split
      · exact envelopeOK_error _ _
      · exact envelopeOK_success _

/-- C8: every row any import route returns carries all 27 tariff-rate
columns, and no row any export route returns carries any of them. -/
theorem C8_rate_columns_import_only (dbFile : Option DB) (cp qP lP : Option String) :
    ((import_by_code dbFile cp).data.getD []).all
      (fun row => rateColumns.all (fun c => (List.lookup c row).isSome)) = true ∧
    ((import_by_name dbFile qP lP).data.getD []).all
      (fun row => rateColumns.all (fun c => (List.lookup c row).isSome)) = true ∧
    ((export_by_code dbFile cp).data.getD []).all
      (fun row => rateColumns.all (fun c => (List.lookup c row).isNone)) = true ∧
    ((export_by_name dbFile qP lP).data.getD []).all
      (fun row => rateColumns.all (fun c => (List.lookup c row).isNone)) = true := by
  refine ⟨?_, ?_, ?_, ?_⟩
  · rw [List.all_eq_true]
    intro row hrow
    obtain ⟨j, rfl⟩ := import_by_code_data_shape dbFile cp row hrow
    exact rateColumns_toRowImport j
  · rw [List.all_eq_true]
    intro row hrow
    obtain ⟨j, rfl⟩ := import_by_name_data_shape dbFile qP lP row hrow
    exact rateColumns_toRowImport j
  · rw [List.all_eq_true]
    intro row hrow
    obtain ⟨j, rfl⟩ := export_by_code_data_shape dbFile cp row hrow
    exact rateColumns_toRowExport j
  · rw [List.all_eq_true]
    intro row hrow
    obtain ⟨j, rfl⟩ := export_by_name_data_shape dbFile qP lP row hrow
    exact rateColumns_toRowExport j

/-- C9: the handlers are functions of the request parameters and the
dataset state alone, so two identical GET requests against the same
dataset receive identical responses (hence identical `data`). -/
theorem C9_idempotent (dbFile dbFile' : Option DB) (cp cp' qP qP' lP lP' : Option String)
    (hdb : dbFile = dbFile') (hcp : cp = cp') (hqP : qP = qP') (hlP : lP = lP') :
    export_by_code dbFile cp = export_by_code dbFile' cp' ∧
    export_by_name dbFile qP lP = export_by_name dbFile' qP' lP' ∧
    import_by_code dbFile cp = import_by_code dbFile' cp' ∧
    import_by_name dbFile qP lP = import_by_name dbFile' qP' lP' := by
  subst hdb hcp hqP hlP
  exact ⟨rfl, rfl, rfl, rfl⟩

end Tonban

namespace Tonban

/-- C3: on both search routes the limit parameter defaults to 100 when
absent, is rejected with HTTP 400 when not parseable as an integer, and
when parseable is clamped into [1, 1000] rather than rejected; in
particular `limit=0` behaves as `limit=1` and `limit=5000` as
`limit=1000`. -/
theorem C3_limit_default_clamp_reject (dbFile : Option DB) (qP : Option String) :
    (export_by_name dbFile qP none = export_by_name dbFile qP (some "100")) ∧
    (export_by_name dbFile qP (some "0") = export_by_name dbFile qP (some "1")) ∧
    (export_by_name dbFile qP (some "5000") = export_by_name dbFile qP (some "1000")) ∧
    (∀ s : String, 2 ≤ (pyStrip (qP.getD "")).length → pyParseLimit (some s) = none →
      export_by_name dbFile qP (some s) = _error "limit パラメータは整数で指定してください" 400) ∧
    (∀ (s : String) (n : Int), 2 ≤ (pyStrip (qP.getD "")).length →
      pyParseLimit (some s) = some n →
      export_by_name dbFile qP (some s) =
        _success (_query dbFile (fun db =>
          sqlExportName db ("%" ++ pyStrip (qP.getD "") ++ "%") (max 1 (min n 1000)).toNat))) ∧
    (import_by_name dbFile qP none = import_by_name dbFile qP (some "100")) ∧
    (import_by_name dbFile qP (some "0") = import_by_name dbFile qP (some "1")) ∧
    (import_by_name dbFile qP (some "5000") = import_by_name dbFile qP (some "1000")) ∧
    (∀ s : String, 2 ≤ (pyStrip (qP.getD "")).length → pyParseLimit (some s) = none →
      import_by_name dbFile qP (some s) = _error "limit パラメータは整数で指定してください" 400) ∧
    (∀ (s : String) (n : Int), 2 ≤ (pyStrip (qP.getD "")).length →
      pyParseLimit (some s) = some n →
      import_by_name dbFile qP (some s) =
        _success (_query dbFile (fun db =>
          sqlImportName db ("%" ++ pyStrip (qP.getD "") ++ "%") (max 1 (min n 1000)).toNat))) := by
  refine ⟨?_, ?_, ?_, ?_, ?_, ?_, ?_, ?_, ?_, ?_⟩
  · by_cases hq : (pyStrip (qP.getD "")).length < 2
    · simp only [export_by_name]
      rw [if_pos hq]
      rw [if_pos hq]
    · rw [export_by_name_success dbFile qP none 100 hq rfl,
        export_by_name_success dbFile qP (some "100") 100 hq rfl]
  · by_cases hq : (pyStrip (qP.getD "")).length < 2
    · simp only [export_by_name]
      rw [if_pos hq]
      rw [if_pos hq]
    · rw [export_by_name_success dbFile qP (some "0") 0 hq rfl,
        export_by_name_success dbFile qP (some "1") 1 hq rfl]
      norm_num
  · by_cases hq : (pyStrip (qP.getD "")).length < 2
    · simp only [export_by_name]
      rw [if_pos hq]
      rw [if_pos hq]
    · rw [export_by_name_success dbFile qP (some "5000") 5000 hq rfl,
        export_by_name_success dbFile qP (some "1000") 1000 hq rfl]
      norm_num
  · intro s hq2 hs
    simp only [export_by_name]
    rw [if_neg (Nat.not_lt.mpr hq2), hs]
  · intro s n hq2 hs
    exact export_by_name_success dbFile qP (some s) n (Nat.not_lt.mpr hq2) hs
  · by_cases hq : (pyStrip (qP.getD "")).length < 2
    · simp only [import_by_name]
      rw [if_pos hq]
      rw [if_pos hq]
    · rw [import_by_name_success dbFile qP none 100 hq rfl,
        import_by_name_success dbFile qP (some "100") 100 hq rfl]
  · by_cases hq : (pyStrip (qP.getD "")).length < 2
    · simp only [import_by_name]
      rw [if_pos hq]
      rw [if_pos hq]
    · rw [import_by_name_success dbFile qP (some "0") 0 hq rfl,
        import_by_name_success dbFile qP (some "1") 1 hq rfl]
      norm_num
  · by_cases hq : (pyStrip (qP.getD "")).length < 2
    · simp only [import_by_name]
      rw [if_pos hq]
      rw [if_pos hq]
    · rw [import_by_name_success dbFile qP (some "5000") 5000 hq rfl,
        import_by_name_success dbFile qP (some "1000") 1000 hq rfl]
      norm_num
  · intro s hq2 hs
    simp only [import_by_name]
    rw [if_neg (Nat.not_lt.mpr hq2), hs]
  · intro s n hq2 hs
    exact import_by_name_success dbFile qP (some s) n (Nat.not_lt.mpr hq2) hs

end Tonban

namespace Tonban

/-- C1 (amended): on both search routes, for a valid keyword and a
parseable limit, the returned rows are sorted ascending by 統番, their
count is at most the clamped bound limit, and every returned row has at
least one of the five searched text columns matching the SQL LIKE pattern
built from the keyword. -/
theorem C1_search_rows_like_sorted_capped (dbFile : Option DB) (qP lP : Option String)
    (n : Int) (hq : 2 ≤ (pyStrip (qP.getD "")).length) (hl : pyParseLimit lP = some n) :
    (sortedByToban ((export_by_name dbFile qP lP).data.getD []) ∧
      ((export_by_name dbFile qP lP).data.getD []).length ≤ (max 1 (min n 1000)).toNat ∧
      ((export_by_name dbFile qP lP).data.getD []).all
        (fun row => rowLikeHit row (pyStrip (qP.getD ""))) = true) ∧
    (sortedByToban ((import_by_name dbFile qP lP).data.getD []) ∧
      ((import_by_name dbFile qP lP).data.getD []).length ≤ (max 1 (min n 1000)).toNat ∧
      ((import_by_name dbFile qP lP).data.getD []).all
        (fun row => rowLikeHit row (pyStrip (qP.getD ""))) = true) := by
  rw [export_by_name_success dbFile qP lP n (Nat.not_lt.mpr hq) hl,
    import_by_name_success dbFile qP lP n (Nat.not_lt.mpr hq) hl]
  dsimp only [_success]
  cases dbFile with
  | none =>
    dsimp only [_query]
    exact ⟨⟨by simp [sortedByToban], by simp, rfl⟩, by simp [sortedByToban], by simp, rfl⟩
  | some db =>
    dsimp only [_query]
    refine ⟨⟨sqlExportName_sorted db _ _, sqlExportName_length db _ _, ?_⟩,
      sqlImportName_sorted db _ _, sqlImportName_length db _ _, ?_⟩
    · rw [List.all_eq_true]
      intro row hrow
      exact sqlExportName_like db _ _ row hrow
    · rw [List.all_eq_true]
      intro row hrow
      exact sqlImportName_like db _ _ row hrow

/-- C1 (counterexample to the claim as stated): the keyword `ho_ses` is a
valid search (trimmed length 2 or more), the response is HTTP 200 and
returns a row, yet not every returned row contains the keyword as a
literal substring of one of the five text columns (the `_` acted as a
wildcard). -/
theorem C1_substring_counterexample :
    2 ≤ (pyStrip ((some "ho_ses").getD "")).length ∧
    (export_by_name (some sampleDB) (some "ho_ses") none).status = 200 ∧
    ((export_by_name (some sampleDB) (some "ho_ses") none).data.getD []).length = 1 ∧
    ((export_by_name (some sampleDB) (some "ho_ses") none).data.getD []).all
      (fun row => rowSubstrHit row (pyStrip ((some "ho_ses").getD ""))) = false := by
  decide

/-- C10: the keyword is interpolated unescaped into the `%{q}%` LIKE
pattern, so a valid keyword containing `%` (here `h%s`) returns a row
that matches only via the wildcard, not as a literal substring. -/
theorem C10_like_metacharacters_wildcards :
    2 ≤ (pyStrip ((some "h%s").getD "")).length ∧
    (export_by_name (some sampleDB) (some "h%s") none).status = 200 ∧
    ((export_by_name (some sampleDB) (some "h%s") none).data.getD []).length = 1 ∧
    ((export_by_name (some sampleDB) (some "h%s") none).data.getD []).all
      (fun row => rowSubstrHit row (pyStrip ((some "h%s").getD ""))) = false := by
  decide

end Tonban

namespace Tonban

/-- Witness instantiating `C1_search_rows_like_sorted_capped` at the
sample dataset with keyword `ab` and absent limit. -/
theorem C1_search_witness :
    (2 ≤ (pyStrip ((some "ab").getD "")).length ∧ pyParseLimit none = some 100) ∧
    ((sortedByToban ((export_by_name (some sampleDB) (some "ab") none).data.getD []) ∧
      ((export_by_name (some sampleDB) (some "ab") none).data.getD []).length ≤
        (max 1 (min (100 : Int) 1000)).toNat ∧
      ((export_by_name (some sampleDB) (some "ab") none).data.getD []).all
        (fun row => rowLikeHit row (pyStrip ((some "ab").getD ""))) = true) ∧
    (sortedByToban ((import_by_name (some sampleDB) (some "ab") none).data.getD []) ∧
      ((import_by_name (some sampleDB) (some "ab") none).data.getD []).length ≤
        (max 1 (min (100 : Int) 1000)).toNat ∧
      ((import_by_name (some sampleDB) (some "ab") none).data.getD []).all
        (fun row => rowLikeHit row (pyStrip ((some "ab").getD ""))) = true)) :=
  ⟨⟨by decide, rfl⟩,
   C1_search_rows_like_sorted_capped (some sampleDB) (some "ab") none 100 (by decide) rfl⟩

/-- Witness instantiating `C2_code_lookup_404_or_200` at the sample
dataset, once with an absent code (404 branch) and once with a present
code (200 branch). -/
theorem C2_witness :
    (pyStrip ((some "9999").getD "") ≠ "") ∧
    export_by_code (some sampleDB) (some "9999") =
      _error ("統番 " ++ pyStrip ((some "9999").getD "") ++ " が見つかりません") 404 ∧
    export_by_code (some sampleDB) (some "0101.21-000") =
      _success (_query (some sampleDB)
        (fun db => sqlExportCode db (pyStrip ((some "0101.21-000").getD "")))) :=
  ⟨by decide,
   ((C2_code_lookup_404_or_200 (some sampleDB) (some "9999") (by decide)).1).1 (by decide),
   ((C2_code_lookup_404_or_200 (some sampleDB) (some "0101.21-000") (by decide)).1).2
     (by decide)⟩

/-- Witness instantiating `C3_limit_default_clamp_reject` at the sample
dataset: absent limit equals `limit=100`, `limit=abc` is rejected, and
`limit=5` succeeds with the clamped bound. -/
theorem C3_witness :
    (export_by_name (some sampleDB) (some "ab") none =
      export_by_name (some sampleDB) (some "ab") (some "100")) ∧
    (2 ≤ (pyStrip ((some "ab").getD "")).length) ∧
    (pyParseLimit (some "abc") = none) ∧
    (export_by_name (some sampleDB) (some "ab") (some "abc") =
      _error "limit パラメータは整数で指定してください" 400) ∧
    (pyParseLimit (some "5") = some 5) ∧
    (export_by_name (some sampleDB) (some "ab") (some "5") =
      _success (_query (some sampleDB) (fun db =>
        sqlExportName db ("%" ++ pyStrip ((some "ab").getD "") ++ "%")
          (max 1 (min (5 : Int) 1000)).toNat))) :=
  ⟨(C3_limit_default_clamp_reject (some sampleDB) (some "ab")).1,
   by decide, rfl,
   (C3_limit_default_clamp_reject (some sampleDB) (some "ab")).2.2.2.1 "abc" (by decide) rfl,
   rfl,
   (C3_limit_default_clamp_reject (some sampleDB) (some "ab")).2.2.2.2.1 "5" 5 (by decide) rfl⟩

/-- Witness instantiating `C4_short_keyword_400` at a one-character
keyword. -/
theorem C4_witness :
    ((pyStrip ((some "a").getD "")).length < 2) ∧
    export_by_name (some sampleDB) (some "a") none =
      _error "q パラメータを2文字以上で指定してください" 400 ∧
    import_by_name (some sampleDB) (some "a") none =
      _error "q パラメータを2文字以上で指定してください" 400 :=
  ⟨by decide,
   (C4_short_keyword_400 (some sampleDB) (some "a") none (by decide)).1,
   (C4_short_keyword_400 (some sampleDB) (some "a") none (by decide)).2⟩

/-- Witness instantiating `C5_blank_code_400` at a whitespace-only code. -/
theorem C5_witness :
    (pyStrip ((some "   ").getD "") = "") ∧
    export_by_code (some sampleDB) (some "   ") =
      _error "code パラメータを指定してください" 400 ∧
    import_by_code (some sampleDB) (some "   ") =
      _error "code パラメータを指定してください" 400 :=
  ⟨by decide,
   (C5_blank_code_400 (some sampleDB) (some "   ") (by decide)).1,
   (C5_blank_code_400 (some sampleDB) (some "   ") (by decide)).2⟩

/-- Witness instantiating `C6_missing_db_degrades` at concrete request
parameters against the absent dataset. -/
theorem C6_witness :
    (pyStrip ((some "zz").getD "") ≠ "") ∧
    (¬ (pyStrip ((some "ab").getD "")).length < 2) ∧
    (pyParseLimit none = some 100) ∧
    (_query none (fun db => sqlExportCode db "zz") = [] ∧
      export_by_code none (some "zz") =
        _error ("統番 " ++ pyStrip ((some "zz").getD "") ++ " が見つかりません") 404 ∧
      import_by_code none (some "zz") =
        _error ("統番 " ++ pyStrip ((some "zz").getD "") ++ " が見つかりません") 404 ∧
      export_by_name none (some "ab") none = _success [] ∧
      import_by_name none (some "ab") none = _success []) :=
  ⟨by decide, by decide, rfl,
   C6_missing_db_degrades (some "zz") (some "ab") none
     (fun db => sqlExportCode db "zz") 100 (by decide) (by decide) rfl⟩

/-- Witness instantiating `C9_idempotent` at concrete equal request
pairs. -/
theorem C9_witness :
    ((some sampleDB : Option DB) = some sampleDB) ∧
    ((some "0101.21-000" : Option String) = some "0101.21-000") ∧
    ((some "ab" : Option String) = some "ab") ∧
    ((none : Option String) = none) ∧
    (export_by_code (some sampleDB) (some "0101.21-000") =
        export_by_code (some sampleDB) (some "0101.21-000") ∧
      export_by_name (some sampleDB) (some "ab") none =
        export_by_name (some sampleDB) (some "ab") none ∧
      import_by_code (some sampleDB) (some "0101.21-000") =
        import_by_code (some sampleDB) (some "0101.21-000") ∧
      import_by_name (some sampleDB) (some "ab") none =
        import_by_name (some sampleDB) (some "ab") none) :=
  ⟨rfl, rfl, rfl, rfl,
   C9_idempotent (some sampleDB) (some sampleDB) (some "0101.21-000") (some "0101.21-000")
     (some "ab") (some "ab") none none rfl rfl rfl rfl⟩

end Tonban
